import Mathlib

/-
Verification of the messenger help-bot webhook adapter.

The repository contains several near-duplicate variants of the same
Express/Messenger sample app.  We embed each variant's decision logic in its
own namespace, keyed by the source file it is translated from:

  * `P0` — src/unnamed/part_000 (help-keyword message processing, the
    four-choice quick-reply prompt with `QR_..._1` payload tokens, and a
    branching carousel responder identical to part_002's);
  * `P1` — src/unnamed/part_001 (the older full sample: `sendHelpOptions`
    with `QR_..._A` payload tokens, a two-button branching carousel
    responder that drops degenerate carousels);
  * `P2` — src/unnamed/part_002 (the rebuilt app: signature verifier,
    webhook POST dispatch, the branching carousel responder that always
    sends, and the linear photo walk over `QR_..._1..6` tokens).

An outbound message is modelled structurally (`OutboundMessage`); a handler
returns an `Effect`: the console messages it emits that the verification
reasons about, plus the ordered list of Send-API calls it makes, each a
`(recipientId, message)` pair.  Console traces that merely echo request
metadata (property lists, JSON dumps of inbound messages) are not tracked
in `Effect.logs`; the configuration-error messages of the carousel builders
are tracked verbatim.
-/

namespace Messenger

/- Data model for outbound messages (§ Reply Builder of the source). -/

structure Button where
  type : String
  title : String
  payload : String
  deriving DecidableEq, Repr

structure QuickReply where
  content_type : String
  title : String
  payload : String
  deriving DecidableEq, Repr

structure TemplateElement where
  title : String
  subtitle : String
  image_url : String
  buttons : List Button
  deriving DecidableEq, Repr

inductive AttachmentPayload where
  | url (u : String)
  | template (template_type : String) (elements : List TemplateElement)
  deriving DecidableEq, Repr

structure Attachment where
  type : String
  payload : AttachmentPayload
  deriving DecidableEq, Repr

structure OutboundMessage where
  text : Option String
  quick_replies : Option (List QuickReply)
  attachment : Option Attachment
  metadata : Option String
  deriving DecidableEq, Repr

/-- Effect of running one handler: tracked console messages and the ordered
Send-API calls, each a `(recipientId, message)` pair. -/
structure Effect where
  logs : List String
  sends : List (String × OutboundMessage)
  deriving DecidableEq, Repr

def noEffect : Effect := { logs := [], sends := [] }

/-- Embeds `'https://' + SERVER_URL + "/assets/screenshots/"` from
part_000/part_002 (part_001 omits the protocol prefix and concatenates
`SERVER_URL + "/assets/screenshots/"` directly). -/
def IMG_BASE_PATH (serverURL : String) : String :=
  "https://" ++ serverURL ++ "/assets/screenshots/"

/-- Embeds JavaScript `String.prototype.toLowerCase` for the ASCII command
keywords the bot compares against. -/
def jsToLowerCase (s : String) : String := ⟨s.data.map Char.toLower⟩

end Messenger

namespace Messenger.P1

/-- Embeds part_001's `sendHelpOptions`: the top-level four-choice
quick-reply prompt ("Select a feature to learn more.") with the
`QR_..._A` payload token family. -/
def sendHelpOptionsMessage : OutboundMessage :=
  { text := some "Select a feature to learn more.",
    quick_replies := some [
      { content_type := "text", title := "Rotation", payload := "QR_ROTATION_A" },
      { content_type := "text", title := "Photo", payload := "QR_PHOTO_A" },
      { content_type := "text", title := "Poster Text", payload := "QR_POSTER_TEXT_A" },
      { content_type := "text", title := "Background Color", payload := "QR_BACKGROUND_COLOR_A" }],
    attachment := none,
    metadata := none }

def sendHelpOptions (recipientId : String) : Effect :=
  { logs := [], sends := [(recipientId, sendHelpOptionsMessage)] }

end Messenger.P1

namespace Messenger.P2

/-
Linear navigation mode: `respondToHelpRequestWithLinearPhotos` of
src/unnamed/part_002, lines 387-574.  The JS function initialises
`quickReplies` as `[Restart, Continue]` and an empty image attachment,
mutates them in a switch over the payload token, and finally deletes the
`text` field when an attachment payload was set.  The mutations are
mirrored by `setContinuePayload` (`quickReplies[1].payload = ...`) and
`popAndRetitle` (`quickReplies.pop(); quickReplies[0].title = ...`).

`sendHelpOptions`, called by the `QR_RESTART` and `default` cases, is not
defined in part_002 itself; the only definition of that name in the
repository is part_001's, which is used here.
-/

/-- Mutable state of the linear responder before the message is assembled:
`textToSend`, the `quickReplies` array, and the image attachment payload
(`none` embeds the JS sentinel `""`, i.e. no attachment). -/
structure LinearState where
  textToSend : String
  quickReplies : List QuickReply
  attachmentUrl : Option String
  deriving DecidableEq, Repr

/-- Initial `quickReplies` array: `Restart` and a `Continue` whose payload
is filled in per step. -/
def initialQuickReplies : List QuickReply :=
  [{ content_type := "text", title := "Restart", payload := "QR_RESTART" },
   { content_type := "text", title := "Continue", payload := "" }]

/-- Embeds `quickReplies[1].payload = p`. -/
def setContinuePayload (qs : List QuickReply) (p : String) : List QuickReply :=
  match qs with
  | q0 :: q1 :: rest => q0 :: { q1 with payload := p } :: rest
  | other => other

/-- Embeds `quickReplies.pop(); quickReplies[0].title = "Explore another feature"`. -/
def popAndRetitle (qs : List QuickReply) : List QuickReply :=
  match qs.dropLast with
  | q0 :: rest => { q0 with title := "Explore another feature" } :: rest
  | [] => []

/-- State produced by each labelled case of the linear switch; `none` for a
token that matches no case (the JS `default`).  `QR_RESTART` is handled
before this table is consulted, as in the source switch. -/
def linearCase (s token : String) : Option LinearState :=
  if token = "QR_ROTATION_1" then
    some { textToSend := "Click the Rotate button to toggle the poster's orientation between landscape and portrait mode.",
           quickReplies := setContinuePayload initialQuickReplies "QR_ROTATION_2",
           attachmentUrl := none }
  else if token = "QR_ROTATION_2" then
    some { textToSend := "",
           quickReplies := setContinuePayload initialQuickReplies "QR_ROTATION_3",
           attachmentUrl := some (IMG_BASE_PATH s ++ "01-rotate-landscape.png") }
  else if token = "QR_ROTATION_3" then
    some { textToSend := "",
           quickReplies := popAndRetitle initialQuickReplies,
           attachmentUrl := some (IMG_BASE_PATH s ++ "02-rotate-portrait.png") }
  else if token = "QR_PHOTO_1" then
    some { textToSend := "Click the Photo button to select an image to use on your poster. We recommend visiting https://unsplash.com/random from your device to seed your Downloads folder with some images before you get started.",
           quickReplies := setContinuePayload initialQuickReplies "QR_PHOTO_2",
           attachmentUrl := none }
  else if token = "QR_PHOTO_2" then
    some { textToSend := "",
           quickReplies := setContinuePayload initialQuickReplies "QR_PHOTO_3",
           attachmentUrl := some (IMG_BASE_PATH s ++ "03-photo-hover.png") }
  else if token = "QR_PHOTO_3" then
    some { textToSend := "",
           quickReplies := setContinuePayload initialQuickReplies "QR_PHOTO_4",
           attachmentUrl := some (IMG_BASE_PATH s ++ "04-photo-list.png") }
  else if token = "QR_PHOTO_4" then
    some { textToSend := "",
           quickReplies := popAndRetitle initialQuickReplies,
           attachmentUrl := some (IMG_BASE_PATH s ++ "05-photo-selected.png") }
  else if token = "QR_CAPTION_1" then
    some { textToSend := "Click the Text button to set the caption that appears at the bottom of the poster.",
           quickReplies := setContinuePayload initialQuickReplies "QR_CAPTION_2",
           attachmentUrl := none }
  else if token = "QR_CAPTION_2" then
    some { textToSend := "",
           quickReplies := setContinuePayload initialQuickReplies "QR_CAPTION_3",
           attachmentUrl := some (IMG_BASE_PATH s ++ "06-text-hover.png") }
  else if token = "QR_CAPTION_3" then
    some { textToSend := "",
           quickReplies := setContinuePayload initialQuickReplies "QR_CAPTION_4",
           attachmentUrl := some (IMG_BASE_PATH s ++ "07-text-mid-entry.png") }
  else if token = "QR_CAPTION_4" then
    some { textToSend := "",
           quickReplies := setContinuePayload initialQuickReplies "QR_CAPTION_5",
           attachmentUrl := some (IMG_BASE_PATH s ++ "08-text-entry-done.png") }
  else if token = "QR_CAPTION_5" then
    some { textToSend := "",
           quickReplies := popAndRetitle initialQuickReplies,
           attachmentUrl := some (IMG_BASE_PATH s ++ "09-text-complete.png") }
  else if token = "QR_BACKGROUND_1" then
    some { textToSend := "Click the Background button to select a background color for your poster.",
           quickReplies := setContinuePayload initialQuickReplies "QR_BACKGROUND_2",
           attachmentUrl := none }
  else if token = "QR_BACKGROUND_2" then
    some { textToSend := "",
           quickReplies := setContinuePayload initialQuickReplies "QR_BACKGROUND_3",
           attachmentUrl := some (IMG_BASE_PATH s ++ "10-background-picker-hover.png") }
  else if token = "QR_BACKGROUND_3" then
    some { textToSend := "",
           quickReplies := setContinuePayload initialQuickReplies "QR_BACKGROUND_4",
           attachmentUrl := some (IMG_BASE_PATH s ++ "11-background-picker-appears.png") }
  else if token = "QR_BACKGROUND_4" then
    some { textToSend := "",
           quickReplies := setContinuePayload initialQuickReplies "QR_BACKGROUND_5",
           attachmentUrl := some (IMG_BASE_PATH s ++ "12-background-picker-selection.png") }
  else if token = "QR_BACKGROUND_5" then
    some { textToSend := "",
           quickReplies := setContinuePayload initialQuickReplies "QR_BACKGROUND_6",
           attachmentUrl := some (IMG_BASE_PATH s ++ "13-background-picker-selection-made.png") }
  else if token = "QR_BACKGROUND_6" then
    some { textToSend := "",
           quickReplies := popAndRetitle initialQuickReplies,
           attachmentUrl := some (IMG_BASE_PATH s ++ "14-background-changed.png") }
  else
    none

/-- Assembles `messageData.message`: `{ text, quick_replies }`, and when the
attachment payload was set, the attachment is added and the text field is
deleted (`delete messageData.message.text`). -/
def buildLinearMessage (st : LinearState) : OutboundMessage :=
  match st.attachmentUrl with
  | none =>
      { text := some st.textToSend, quick_replies := some st.quickReplies,
        attachment := none, metadata := none }
  | some u =>
      { text := none, quick_replies := some st.quickReplies,
        attachment := some { type := "image", payload := .url u },
        metadata := none }

/-- Embeds part_002's `respondToHelpRequestWithLinearPhotos`
(`s` is `SERVER_URL`). -/
def respondToHelpRequestWithLinearPhotos (s recipientId token : String) : Effect :=
  if token = "QR_RESTART" then P1.sendHelpOptions recipientId
  else
    match linearCase s token with
    | some st => { logs := [], sends := [(recipientId, buildLinearMessage st)] }
    | none => P1.sendHelpOptions recipientId

end Messenger.P2

namespace Messenger.P2

/-
Branching navigation mode: `respondToHelpRequestWithTemplates` of
src/unnamed/part_002, lines 219-378 (src/unnamed/part_000 lines 274-433
contain a textually identical switch).  Each recognised topic token first
fills `sectionButtons` with one postback button per *other* topic via
`addSectionButton`, then pushes every card of the topic, all sharing the
same `sectionButtons` array.  The switch has no `default` case, so an
unrecognised token leaves `templateElements` empty.  When
`templateElements.length < 2` the function logs
"each template should have at least two elements" via `console.error` but
falls through and still calls `callSendAPI` with the degenerate carousel.
-/

/-- The `sectionButtons` array built by `addSectionButton` in each case of
the part_002/part_000 switch; `[]` for an unrecognised token. -/
def sectionButtons (token : String) : List Button :=
  if token = "QR_ROTATION_1" then
    [{ type := "postback", title := "Photo", payload := "QR_PHOTO_1" },
     { type := "postback", title := "Caption", payload := "QR_CAPTION_1" },
     { type := "postback", title := "Background", payload := "QR_BACKGROUND_1" }]
  else if token = "QR_PHOTO_1" then
    [{ type := "postback", title := "Rotation", payload := "QR_ROTATION_1" },
     { type := "postback", title := "Caption", payload := "QR_CAPTION_1" },
     { type := "postback", title := "Background", payload := "QR_BACKGROUND_1" }]
  else if token = "QR_CAPTION_1" then
    [{ type := "postback", title := "Rotation", payload := "QR_ROTATION_1" },
     { type := "postback", title := "Photo", payload := "QR_PHOTO_1" },
     { type := "postback", title := "Background", payload := "QR_BACKGROUND_1" }]
  else if token = "QR_BACKGROUND_1" then
    [{ type := "postback", title := "Rotation", payload := "QR_ROTATION_1" },
     { type := "postback", title := "Photo", payload := "QR_PHOTO_1" },
     { type := "postback", title := "Caption", payload := "QR_CAPTION_1" }]
  else []

/-- The `templateElements` array pushed by each case of the part_002
switch; every card of a topic carries the same `sectionButtons`. -/
def templateElements (s token : String) : List TemplateElement :=
  if token = "QR_ROTATION_1" then
    [{ title := "Rotation", subtitle := "portrait mode",
       image_url := IMG_BASE_PATH s ++ "01-rotate-landscape.png", buttons := sectionButtons token },
     { title := "Rotation", subtitle := "landscape mode",
       image_url := IMG_BASE_PATH s ++ "02-rotate-portrait.png", buttons := sectionButtons token }]
  else if token = "QR_PHOTO_1" then
    [{ title := "Photo Picker", subtitle := "click to start",
       image_url := IMG_BASE_PATH s ++ "03-photo-hover.png", buttons := sectionButtons token },
     { title := "Photo Picker", subtitle := "Downloads folder",
       image_url := IMG_BASE_PATH s ++ "04-photo-list.png", buttons := sectionButtons token },
     { title := "Photo Picker", subtitle := "photo selected",
       image_url := IMG_BASE_PATH s ++ "05-photo-selected.png", buttons := sectionButtons token }]
  else if token = "QR_CAPTION_1" then
    [{ title := "Caption", subtitle := "click to start",
       image_url := IMG_BASE_PATH s ++ "06-text-hover.png", buttons := sectionButtons token },
     { title := "Caption", subtitle := "enter text",
       image_url := IMG_BASE_PATH s ++ "07-text-mid-entry.png", buttons := sectionButtons token },
     { title := "Caption", subtitle := "click OK",
       image_url := IMG_BASE_PATH s ++ "08-text-entry-done.png", buttons := sectionButtons token },
     { title := "Caption", subtitle := "Caption done",
       image_url := IMG_BASE_PATH s ++ "09-text-complete.png", buttons := sectionButtons token }]
  else if token = "QR_BACKGROUND_1" then
    [{ title := "Background Color Picker", subtitle := "click to start",
       image_url := IMG_BASE_PATH s ++ "10-background-picker-hover.png", buttons := sectionButtons token },
     { title := "Background Color Picker", subtitle := "click current color",
       image_url := IMG_BASE_PATH s ++ "11-background-picker-appears.png", buttons := sectionButtons token },
     { title := "Background Color Picker", subtitle := "select new color",
       image_url := IMG_BASE_PATH s ++ "12-background-picker-selection.png", buttons := sectionButtons token },
     { title := "Background Color Picker", subtitle := "click ok",
       image_url := IMG_BASE_PATH s ++ "13-background-picker-selection-made.png", buttons := sectionButtons token },
     { title := "Background Color Picker", subtitle := "color is applied",
       image_url := IMG_BASE_PATH s ++ "14-background-changed.png", buttons := sectionButtons token }]
  else []

/-- The generic-template carousel message assembled at the end of
`respondToHelpRequestWithTemplates`. -/
def carouselMessage (els : List TemplateElement) : OutboundMessage :=
  { text := none, quick_replies := none,
    attachment := some { type := "template",
                         payload := .template "generic" els },
    metadata := none }

/-- Embeds part_002's `respondToHelpRequestWithTemplates`: logs the entry
trace, logs the configuration error when fewer than two elements were
built, and unconditionally calls the Send API with the carousel. -/
def respondToHelpRequestWithTemplates (s recipientId token : String) : Effect :=
  let els := templateElements s token
  { logs := ["[respondToHelpRequestWithTemplates] handling help request for " ++ token]
        ++ (if els.length < 2 then ["each template should have at least two elements"] else []),
    sends := [(recipientId, carouselMessage els)] }

end Messenger.P2

namespace Messenger.P1

/-
Branching responder of src/unnamed/part_001, lines 381-546.  This older
variant uses the `QR_..._A` token family, gives every card only TWO
navigation buttons, and — unlike part_002 — returns before calling the
Send API when fewer than two elements were built
(`console.log("add at least two elements"); return;`).
-/

/-- The two-slot `sectionButtons` array of part_001 after the mutations of
the matching case; for an unrecognised token the two buttons keep their
initialised empty titles and payloads. -/
def sectionButtons (token : String) : List Button :=
  if token = "QR_ROTATION_A" then
    [{ type := "postback", title := "Background Color", payload := "QR_BACKGROUND_COLOR_A" },
     { type := "postback", title := "Photo", payload := "QR_PHOTO_A" }]
  else if token = "QR_PHOTO_A" then
    [{ type := "postback", title := "Rotation", payload := "QR_ROTATION_A" },
     { type := "postback", title := "Caption", payload := "QR_POSTER_TEXT_A" }]
  else if token = "QR_POSTER_TEXT_A" then
    [{ type := "postback", title := "Photo", payload := "QR_PHOTO_A" },
     { type := "postback", title := "Background Color", payload := "QR_BACKGROUND_COLOR_A" }]
  else if token = "QR_BACKGROUND_COLOR_A" then
    [{ type := "postback", title := "Caption", payload := "QR_POSTER_TEXT_A" },
     { type := "postback", title := "Rotate", payload := "QR_ROTATION_A" }]
  else
    [{ type := "postback", title := "", payload := "" },
     { type := "postback", title := "", payload := "" }]

/-- The `templateElements` pushed by part_001's switch
(`imgBasePath = SERVER_URL + "/assets/screenshots/"`, no protocol prefix). -/
def templateElements (s token : String) : List TemplateElement :=
  let imgBasePath := s ++ "/assets/screenshots/"
  if token = "QR_ROTATION_A" then
    [{ title := "Rotation", subtitle := "portrait mode",
       image_url := imgBasePath ++ "01-rotate-landscape.png", buttons := sectionButtons token },
     { title := "Rotation", subtitle := "landscape mode",
       image_url := imgBasePath ++ "02-rotate-portrait.png", buttons := sectionButtons token }]
  else if token = "QR_PHOTO_A" then
    [{ title := "Photo Picker", subtitle := "click to start",
       image_url := imgBasePath ++ "03-photo-hover.png", buttons := sectionButtons token },
     { title := "Photo Picker", subtitle := "Downloads folder",
       image_url := imgBasePath ++ "04-photo-list.png", buttons := sectionButtons token },
     { title := "Photo Picker", subtitle := "photo selected",
       image_url := imgBasePath ++ "05-photo-selected.png", buttons := sectionButtons token }]
  else if token = "QR_POSTER_TEXT_A" then
    [{ title := "Caption", subtitle := "click to start",
       image_url := imgBasePath ++ "06-text-hover.png", buttons := sectionButtons token },
     { title := "Caption", subtitle := "enter text",
       image_url := imgBasePath ++ "07-text-mid-entry.png", buttons := sectionButtons token },
     { title := "Caption", subtitle := "click OK",
       image_url := imgBasePath ++ "08-text-entry-done.png", buttons := sectionButtons token },
     { title := "Caption", subtitle := "Caption done",
       image_url := imgBasePath ++ "09-text-complete.png", buttons := sectionButtons token }]
  else if token = "QR_BACKGROUND_COLOR_A" then
    [{ title := "Color Picker", subtitle := "click to start",
       image_url := imgBasePath ++ "10-background-picker-hover.png", buttons := sectionButtons token },
     { title := "Color Picker", subtitle := "click current color",
       image_url := imgBasePath ++ "11-background-picker-appears.png", buttons := sectionButtons token },
     { title := "Color Picker", subtitle := "select new color",
       image_url := imgBasePath ++ "12-background-picker-selection.png", buttons := sectionButtons token },
     { title := "Color Picker", subtitle := "click ok",
       image_url := imgBasePath ++ "13-background-picker-selection-made.png", buttons := sectionButtons token },
     { title := "Color Picker", subtitle := "color is applied",
       image_url := imgBasePath ++ "14-background-changed.png", buttons := sectionButtons token }]
  else []

/-- Embeds part_001's `respondToHelpRequestWithTemplates`: when fewer than
two elements were built it logs "add at least two elements" and returns
WITHOUT sending; otherwise it sends the generic-template carousel. -/
def respondToHelpRequestWithTemplates (s recipientId token : String) : Effect :=
  let els := templateElements s token
  if els.length < 2 then
    { logs := ["add at least two elements"], sends := [] }
  else
    { logs := [], sends := [(recipientId, P2.carouselMessage els)] }

end Messenger.P1

namespace Messenger

/- Observation helpers used to state the claims about carousels. -/

/-- Extracts the card list when an effect consists of exactly one send whose
message is a generic-template carousel attachment. -/
def carouselCards (e : Effect) : Option (List TemplateElement) :=
  match e.sends with
  | [(_, m)] =>
    match m.attachment with
    | some a =>
      match a.payload with
      | .template tt els =>
          if a.type = "template" then if tt = "generic" then some els else none
          else none
      | _ => none
    | none => none
  | _ => none

/-- One card is acceptable when its button row names exactly `others` (in
order), never names `currentTitle`, and is identical to the first card's
button row. -/
def cardOk (others : List String) (currentTitle : String)
    (firstButtons : List Button) (el : TemplateElement) : Bool :=
  (el.buttons.map Button.title == others) &&
  !((el.buttons.map Button.title).contains currentTitle) &&
  (el.buttons == firstButtons)

/-- The effect is a single generic-template carousel send with at least two
cards, every card passing `cardOk`. -/
def branchingCarouselOk (e : Effect) (currentTitle : String)
    (others : List String) : Bool :=
  match carouselCards e with
  | some (el0 :: el1 :: rest) =>
      (el0 :: el1 :: rest).all (cardOk others currentTitle el0.buttons)
  | _ => false

/-- C1: for every one of the four topic payload tokens, the Branching-mode
responder (part_002's `respondToHelpRequestWithTemplates`) produces a
generic-template carousel with at least 2 cards, and every card carries an
identical button row naming exactly the other three topics and never the
topic being shown. -/
theorem claim1_branching_carousel (s rid : String) :
    branchingCarouselOk (P2.respondToHelpRequestWithTemplates s rid "QR_ROTATION_1")
      "Rotation" ["Photo", "Caption", "Background"] = true ∧
    branchingCarouselOk (P2.respondToHelpRequestWithTemplates s rid "QR_PHOTO_1")
      "Photo" ["Rotation", "Caption", "Background"] = true ∧
    branchingCarouselOk (P2.respondToHelpRequestWithTemplates s rid "QR_CAPTION_1")
      "Caption" ["Rotation", "Photo", "Background"] = true ∧
    branchingCarouselOk (P2.respondToHelpRequestWithTemplates s rid "QR_BACKGROUND_1")
      "Background" ["Rotation", "Photo", "Caption"] = true :=
  ⟨rfl, rfl, rfl, rfl⟩

/-- The linear-mode message expected at the terminal step of a topic: the
step's image attachment, no text, and the single quick reply
`Explore another feature` carrying the restart sentinel `QR_RESTART`. -/
def terminalStepOk (s rid token file : String) : Prop :=
  (P2.respondToHelpRequestWithLinearPhotos s rid token).sends =
    [(rid, { text := none,
             quick_replies := some
               [{ content_type := "text", title := "Explore another feature",
                  payload := "QR_RESTART" }],
             attachment := some { type := "image",
                                  payload := .url (IMG_BASE_PATH s ++ file) },
             metadata := none })]

/-- C4: for the terminal step token of every topic in Linear mode
(QR_ROTATION_3, QR_PHOTO_4, QR_CAPTION_5, QR_BACKGROUND_6), the built
message carries the topic's last image attachment and a quick-reply set of
exactly one choice, titled "Explore another feature", whose payload is the
restart sentinel `QR_RESTART`. -/
theorem claim4_linear_terminal (s rid : String) :
    terminalStepOk s rid "QR_ROTATION_3" "02-rotate-portrait.png" ∧
    terminalStepOk s rid "QR_PHOTO_4" "05-photo-selected.png" ∧
    terminalStepOk s rid "QR_CAPTION_5" "09-text-complete.png" ∧
    terminalStepOk s rid "QR_BACKGROUND_6" "14-background-changed.png" :=
  ⟨rfl, rfl, rfl, rfl⟩

/-- The linear-mode message expected at an intermediate step: the step's
image attachment, no text field, and the two-choice quick-reply set
`Restart` / `Continue` with `Continue` advanced to the next step token. -/
def intermediateStepOk (s rid token next file : String) : Prop :=
  (P2.respondToHelpRequestWithLinearPhotos s rid token).sends =
    [(rid, { text := none,
             quick_replies := some
               [{ content_type := "text", title := "Restart", payload := "QR_RESTART" },
                { content_type := "text", title := "Continue", payload := next }],
             attachment := some { type := "image",
                                  payload := .url (IMG_BASE_PATH s ++ file) },
             metadata := none })]

/-- C5: every intermediate (non-intro, non-terminal) step token in Linear
mode yields that step's image attachment plus the 2-choice quick-reply set
Restart / Continue, with Continue's payload the next step's token and no
text field; in particular QR_PHOTO_2 yields Continue to QR_PHOTO_3. -/
theorem claim5_linear_intermediate (s rid : String) :
    intermediateStepOk s rid "QR_ROTATION_2" "QR_ROTATION_3" "01-rotate-landscape.png" ∧
    intermediateStepOk s rid "QR_PHOTO_2" "QR_PHOTO_3" "03-photo-hover.png" ∧
    intermediateStepOk s rid "QR_PHOTO_3" "QR_PHOTO_4" "04-photo-list.png" ∧
    intermediateStepOk s rid "QR_CAPTION_2" "QR_CAPTION_3" "06-text-hover.png" ∧
    intermediateStepOk s rid "QR_CAPTION_3" "QR_CAPTION_4" "07-text-mid-entry.png" ∧
    intermediateStepOk s rid "QR_CAPTION_4" "QR_CAPTION_5" "08-text-entry-done.png" ∧
    intermediateStepOk s rid "QR_BACKGROUND_2" "QR_BACKGROUND_3" "10-background-picker-hover.png" ∧
    intermediateStepOk s rid "QR_BACKGROUND_3" "QR_BACKGROUND_4" "11-background-picker-appears.png" ∧
    intermediateStepOk s rid "QR_BACKGROUND_4" "QR_BACKGROUND_5" "12-background-picker-selection.png" ∧
    intermediateStepOk s rid "QR_BACKGROUND_5" "QR_BACKGROUND_6" "13-background-picker-selection-made.png" :=
  ⟨rfl, rfl, rfl, rfl, rfl, rfl, rfl, rfl, rfl, rfl⟩

/-- C6: for every outbound message built by the Linear-mode responder, the
text field and the attachment field are mutually exclusive: whenever an
attachment is present, the text field is absent entirely. -/
theorem claim6_mutual_exclusion (s rid token : String) :
    ((P2.respondToHelpRequestWithLinearPhotos s rid token).sends.all
      (fun p => p.2.attachment.isNone || p.2.text.isNone)) = true := by
  unfold P2.respondToHelpRequestWithLinearPhotos
  split
  · rfl
  · cases h : P2.linearCase s token with
    | none => rfl
    | some st =>
        cases h2 : st.attachmentUrl with
        | none => simp [P2.buildLinearMessage, h2]
        | some u => simp [P2.buildLinearMessage, h2]

end Messenger

namespace Messenger.P0

/-
Message processing of src/unnamed/part_000: `processMessageFromPage`
(lines 173-207), `sendHelpOptionsAsQuickReplies` (213-246) and
`sendTextMessage` (439-450).  A quick-reply tap is routed through
`handleQuickReplyResponse` to `respondToHelpRequestWithTemplates`;
part_000's copy of that responder (lines 274-433) is textually identical
to part_002's, so `P2.respondToHelpRequestWithTemplates` is reused.
-/

/-- Embeds the message built by part_000's `sendHelpOptionsAsQuickReplies`:
the top-level prompt with the four `QR_..._1` choices. -/
def sendHelpOptionsAsQuickRepliesMessage : OutboundMessage :=
  { text := some "Select a feature to learn more.",
    quick_replies := some [
      { content_type := "text", title := "Rotation", payload := "QR_ROTATION_1" },
      { content_type := "text", title := "Photo", payload := "QR_PHOTO_1" },
      { content_type := "text", title := "Caption", payload := "QR_CAPTION_1" },
      { content_type := "text", title := "Background", payload := "QR_BACKGROUND_1" }],
    attachment := none,
    metadata := none }

def sendHelpOptionsAsQuickReplies (recipientId : String) : Effect :=
  { logs := ["[sendHelpOptionsAsQuickReplies] Sending help options menu"],
    sends := [(recipientId, sendHelpOptionsAsQuickRepliesMessage)] }

/-- Embeds part_000's `sendTextMessage` (text field only, no metadata). -/
def sendTextMessage (recipientId messageText : String) : Effect :=
  { logs := [],
    sends := [(recipientId,
      { text := some messageText, quick_replies := none,
        attachment := none, metadata := none })] }

/-- Inbound `message` object: optional `text` and optional
`quick_reply.payload`; JS truthiness makes an empty-string text falsy. -/
structure MessageData where
  text : Option String
  quick_reply : Option String
  deriving DecidableEq, Repr

/-- Embeds part_000's `processMessageFromPage`: a quick_reply is routed to
the branching responder; text is lower-cased and switched, `'help'` sends
the prompt, anything else is echoed back verbatim; a falsy (absent or
empty) text does nothing. -/
def processMessageFromPage (s senderId : String) (m : MessageData) : Effect :=
  match m.quick_reply with
  | some payload => P2.respondToHelpRequestWithTemplates s senderId payload
  | none =>
    match m.text with
    | some t =>
        if t = "" then noEffect
        else if jsToLowerCase t = "help" then sendHelpOptionsAsQuickReplies senderId
        else sendTextMessage senderId t
    | none => noEffect

end Messenger.P0

namespace Messenger

/-- C9: every Message event whose text equals "help" case-insensitively is
answered with the top-level QuickReplyPrompt of exactly 4 choices titled
Rotation, Photo, Caption, Background, in that order
(part_000's `processMessageFromPage`). -/
theorem claim9_help_prompt (s sender t : String) (h : jsToLowerCase t = "help") :
    (P0.processMessageFromPage s sender { text := some t, quick_reply := none }).sends =
      [(sender, P0.sendHelpOptionsAsQuickRepliesMessage)] ∧
    P0.sendHelpOptionsAsQuickRepliesMessage.text = some "Select a feature to learn more." ∧
    P0.sendHelpOptionsAsQuickRepliesMessage.quick_replies.map (List.map QuickReply.title) =
      some ["Rotation", "Photo", "Caption", "Background"] := by
  have ht : ¬(t = "") := by
    intro he
    rw [he] at h
    exact absurd h (by decide)
  refine ⟨?_, rfl, rfl⟩
  simp [P0.processMessageFromPage, ht, h, P0.sendHelpOptionsAsQuickReplies]

/-- Witness for C9 at the concrete mixed-case input "Help". -/
theorem claim9_help_prompt_witness :
    (P0.processMessageFromPage "S" "U" { text := some "Help", quick_reply := none }).sends =
      [("U", P0.sendHelpOptionsAsQuickRepliesMessage)] :=
  (claim9_help_prompt "S" "U" "Help" (by decide)).1

/-- C10: a Message event carrying non-empty text, no quick_reply, and a
text that is not the recognised command keyword `help` is answered with
exactly one outbound text message echoing the received text verbatim
(part_000's `processMessageFromPage`); the spec never states this echo. -/
theorem claim10_echo (s sender t : String) (h1 : t ≠ "")
    (h2 : jsToLowerCase t ≠ "help") :
    (P0.processMessageFromPage s sender { text := some t, quick_reply := none }).sends =
      [(sender, { text := some t, quick_replies := none,
                  attachment := none, metadata := none })] := by
  simp [P0.processMessageFromPage, h1, h2, P0.sendTextMessage]

/-- Witness for C10 at the concrete input "hello". -/
theorem claim10_echo_witness :
    (P0.processMessageFromPage "S" "U" { text := some "hello", quick_reply := none }).sends =
      [("U", { text := some "hello", quick_replies := none,
               attachment := none, metadata := none })] :=
  claim10_echo "S" "U" "hello" (by decide) (by decide)

end Messenger

namespace Messenger

/-- Splits a character list at every occurrence of `c`, keeping empty
segments, as JavaScript `String.prototype.split` does for a one-character
separator. -/
def splitOnChar (c : Char) : List Char → List (List Char)
  | [] => [[]]
  | x :: xs =>
      let rest := splitOnChar c xs
      if x = c then [] :: rest
      else
        match rest with
        | r :: rs => (x :: r) :: rs
        | [] => [[x]]

/-- Embeds `signature.split('=')`. -/
def jsSplit (sep : Char) (s : String) : List String :=
  (splitOnChar sep s.data).map fun cs => ⟨cs⟩

end Messenger

namespace Messenger.P2

/-
Signature verifier: `verifyRequestSignature` of src/unnamed/part_002
lines 72-91 (identical in part_000, part_001 and src/node/app.js).  The
HMAC-SHA1 hex primitive is the external collaborator; it is passed in as a
function `hmacSha1Hex`.  The source guard is `if (!signature)`, a JS
falsiness check: an absent header (undefined) AND a present-but-empty
header ("") both take that branch, which only logs ("Couldn't validate
the signature.") and returns normally, so body parsing and event
classification proceed; a present non-empty header whose digest part
differs from the expected hash (including a header with no `=`-separated
digest at all) throws, which rejects the request.
-/

inductive SignatureCheck where
  | missingLogged
  | valid
  | invalidThrown
  deriving DecidableEq, Repr

def verifyRequestSignature (hmacSha1Hex : String → String → String)
    (appSecret body : String) (signatureHeader : Option String) : SignatureCheck :=
  match signatureHeader with
  | none => .missingLogged
  | some signature =>
      if signature = "" then .missingLogged
      else
        let elements := jsSplit '=' signature
        let signatureHash := elements[1]?
        let expectedHash := hmacSha1Hex appSecret body
        if signatureHash = some expectedHash then .valid else .invalidThrown

/-- Embeds part_002's `sendTextMessage` (text plus the developer-defined
metadata field). -/
def sendTextMessage (recipientId messageText : String) : Effect :=
  { logs := [],
    sends := [(recipientId,
      { text := some messageText, quick_replies := none, attachment := none,
        metadata := some "DEVELOPER_DEFINED_METADATA" })] }

/-- Embeds part_002's `receivedMessage` (lines 169-189): a quick_reply is
routed through `handleQuickReplyResponse` to the branching responder;
otherwise a truthy text is echoed back. -/
def receivedMessage (s senderId : String) (m : P0.MessageData) : Effect :=
  match m.quick_reply with
  | some payload => respondToHelpRequestWithTemplates s senderId payload
  | none =>
    match m.text with
    | some t => if t = "" then noEffect else sendTextMessage senderId t
    | none => noEffect

/-- One raw messaging event as dispatched by part_002's `app.post` handler:
the handler checks `message`, then `delivery`, then `postback`, in that
order, and only logs anything else. -/
structure MessagingEvent where
  senderId : String
  message : Option P0.MessageData
  delivery : Bool
  postback : Option String
  deriving DecidableEq, Repr

/-- Event dispatch of part_002's `app.post` (lines 128-150);
`receivedDeliveryConfirmation` and the unknown-event branch only log. -/
def handleMessagingEvent (s : String) (ev : MessagingEvent) : Effect :=
  match ev.message with
  | some m => receivedMessage s ev.senderId m
  | none =>
      if ev.delivery then noEffect
      else
        match ev.postback with
        | some payload => respondToHelpRequestWithTemplates s ev.senderId payload
        | none => noEffect

structure PageEntry where
  id : String
  time : Nat
  messaging : List MessagingEvent
  deriving DecidableEq, Repr

structure WebhookBody where
  object : String
  entry : List PageEntry
  deriving DecidableEq, Repr

/-- Result of one POST /webhook request: the HTTP statuses written on the
response and the accumulated handler effects. -/
structure PostResult where
  statuses : List Nat
  effect : Effect
  deriving DecidableEq, Repr

def concatEffects (es : List Effect) : Effect :=
  { logs := (es.map Effect.logs).flatten, sends := (es.map Effect.sends).flatten }

/-- Embeds part_002's `app.post('/webhook')` (lines 117-159): only when
`data.object == 'page'` are the entries iterated and `res.sendStatus(200)`
called; for any other object kind the handler body does nothing and writes
NO response at all. -/
def appPost (s : String) (body : WebhookBody) : PostResult :=
  if body.object = "page" then
    { statuses := [200],
      effect := concatEffects
        ((body.entry.map PageEntry.messaging).flatten.map (handleMessagingEvent s)) }
  else
    { statuses := [], effect := noEffect }

end Messenger.P2

namespace Messenger

/-- Counterexample for C7: with the `x-hub-signature` header absent, the
verifier does not throw — it only logs and returns normally
(`missingLogged`), so the request is not rejected, contradicting the claim
that both failure modes reject before classification. -/
theorem claim7_counterexample :
    P2.verifyRequestSignature (fun _ _ => "aa") "secret" "body" none =
      P2.SignatureCheck.missingLogged ∧
    P2.SignatureCheck.missingLogged ≠ P2.SignatureCheck.invalidThrown := by
  decide

/-- C7 as amended: a present, non-empty header whose digest part differs
from the expected HMAC hex digest throws (rejects the request); a falsy
header — absent OR present but empty, per the source's `if (!signature)`
guard — is merely logged and the function returns normally, so that
request is NOT rejected and proceeds to classification; the two failure
modes remain distinguishable. -/
theorem claim7_amended (hm : String → String → String) (secret body sig : String)
    (hsig : sig ≠ "") (h : (jsSplit '=' sig)[1]? ≠ some (hm secret body)) :
    P2.verifyRequestSignature hm secret body none = P2.SignatureCheck.missingLogged ∧
    P2.verifyRequestSignature hm secret body (some "") = P2.SignatureCheck.missingLogged ∧
    P2.verifyRequestSignature hm secret body (some sig) = P2.SignatureCheck.invalidThrown := by
  refine ⟨rfl, rfl, ?_⟩
  simp [P2.verifyRequestSignature, hsig, h]

/-- Witness for C7's amended theorem at a concrete mismatching digest. -/
theorem claim7_amended_witness :
    P2.verifyRequestSignature (fun _ _ => "aa") "secret" "body" none =
      P2.SignatureCheck.missingLogged ∧
    P2.verifyRequestSignature (fun _ _ => "aa") "secret" "body" (some "") =
      P2.SignatureCheck.missingLogged ∧
    P2.verifyRequestSignature (fun _ _ => "aa") "secret" "body" (some "sha1=bb") =
      P2.SignatureCheck.invalidThrown :=
  claim7_amended (fun _ _ => "aa") "secret" "body" "sha1=bb" (by decide) (by decide)

/-- A POST body whose object kind is not "page", carrying one entry with
one well-formed message event. -/
def groupBody : P2.WebhookBody :=
  { object := "group",
    entry := [{ id := "PAGE", time := 0,
                messaging := [{ senderId := "U",
                                message := some { text := some "help", quick_reply := none },
                                delivery := false,
                                postback := none }] }] }

/-- Counterexample for C8: for an envelope with `object = "group"` the
handler processes nothing and sends no replies — but it also writes NO
response at all; in particular no 200 acknowledgment is sent, contradicting
the claim. -/
theorem claim8_counterexample :
    (P2.appPost "S" groupBody).effect.sends = [] ∧
    (P2.appPost "S" groupBody).statuses = [] ∧
    200 ∉ (P2.appPost "S" groupBody).statuses := by
  refine ⟨rfl, rfl, ?_⟩
  decide

/-- C8 as amended: for every POST envelope whose object kind is not
"page", the handler processes no entries and sends no replies, and it
writes no HTTP response at all (the 200 acknowledgment only happens inside
the `object == 'page'` branch). -/
theorem claim8_amended (s : String) (body : P2.WebhookBody)
    (h : body.object ≠ "page") :
    P2.appPost s body = { statuses := [], effect := noEffect } := by
  simp [P2.appPost, h]

/-- Witness for C8's amended theorem at the concrete "group" envelope. -/
theorem claim8_amended_witness :
    P2.appPost "S" groupBody = { statuses := [], effect := noEffect } :=
  claim8_amended "S" groupBody (by decide)

end Messenger

namespace Messenger

/-- All payload tokens recognised by part_002's linear responder,
including the restart sentinel handled before the step table. -/
def linearTokens : List String :=
  ["QR_RESTART",
   "QR_ROTATION_1", "QR_ROTATION_2", "QR_ROTATION_3",
   "QR_PHOTO_1", "QR_PHOTO_2", "QR_PHOTO_3", "QR_PHOTO_4",
   "QR_CAPTION_1", "QR_CAPTION_2", "QR_CAPTION_3", "QR_CAPTION_4", "QR_CAPTION_5",
   "QR_BACKGROUND_1", "QR_BACKGROUND_2", "QR_BACKGROUND_3", "QR_BACKGROUND_4",
   "QR_BACKGROUND_5", "QR_BACKGROUND_6"]

/-- Counterexample for C2: for the unmapped token "QR_XYZZY" the
Branching-mode responder does NOT send the top-level 4-choice prompt (of
either variant) — it sends the degenerate empty carousel instead. -/
theorem claim2_counterexample :
    (P2.respondToHelpRequestWithTemplates "S" "U" "QR_XYZZY").sends.map Prod.snd ≠
      [P0.sendHelpOptionsAsQuickRepliesMessage] ∧
    (P2.respondToHelpRequestWithTemplates "S" "U" "QR_XYZZY").sends.map Prod.snd ≠
      [P1.sendHelpOptionsMessage] := by
  decide

/-- C2 as amended: in Linear mode every unmapped payload token falls back
to the top-level 4-choice quick-reply prompt ("Select a feature to learn
more."); the Branching-mode responder does NOT fall back — for an unmapped
token it still sends a message, namely the degenerate carousel with an
empty element list. -/
theorem claim2_amended (s rid token : String) (h : token ∉ linearTokens) :
    (P2.respondToHelpRequestWithLinearPhotos s rid token).sends =
      [(rid, P1.sendHelpOptionsMessage)] ∧
    P1.sendHelpOptionsMessage.text = some "Select a feature to learn more." ∧
    P1.sendHelpOptionsMessage.quick_replies.map List.length = some 4 ∧
    (P2.respondToHelpRequestWithTemplates s rid token).sends =
      [(rid, P2.carouselMessage [])] := by
  simp only [linearTokens, List.mem_cons, List.not_mem_nil, or_false, not_or] at h
  obtain ⟨h0, h1, h2, h3, h4, h5, h6, h7, h8, h9, h10, h11, h12, h13, h14, h15, h16,
    h17, h18⟩ := h
  refine ⟨?_, rfl, rfl, ?_⟩
  · simp [P2.respondToHelpRequestWithLinearPhotos, P2.linearCase, P1.sendHelpOptions,
      h0, h1, h2, h3, h4, h5, h6, h7, h8, h9, h10, h11, h12, h13, h14, h15, h16, h17, h18]
  · simp [P2.respondToHelpRequestWithTemplates, P2.templateElements, h1, h4, h8, h13]

/-- Witness for C2's amended theorem at the concrete unmapped token. -/
theorem claim2_amended_witness :
    (P2.respondToHelpRequestWithLinearPhotos "S" "U" "QR_BOGUS").sends =
      [("U", P1.sendHelpOptionsMessage)] :=
  (claim2_amended "S" "U" "QR_BOGUS" (by decide)).1

/-- Counterexample for C3: for the unmapped token "QR_XYZZY",
part_002's Branching-mode responder does log the configuration error —
but it still calls the Send API: the degenerate carousel is sent, not
dropped. -/
theorem claim3_counterexample :
    ((P2.respondToHelpRequestWithTemplates "S" "U" "QR_XYZZY").logs.contains
      "each template should have at least two elements") = true ∧
    (P2.respondToHelpRequestWithTemplates "S" "U" "QR_XYZZY").sends ≠ [] := by
  decide

/-- C3 as amended: only the part_001 variant drops a degenerate carousel —
when fewer than 2 cards were built it logs "add at least two elements" and
returns without calling the Send Gateway; the part_002 variant logs its
configuration error but still performs exactly one send. -/
theorem claim3_amended (s rid token : String)
    (h : (P1.templateElements s token).length < 2) :
    (P1.respondToHelpRequestWithTemplates s rid token).sends = [] ∧
    (P1.respondToHelpRequestWithTemplates s rid token).logs =
      ["add at least two elements"] ∧
    (P2.respondToHelpRequestWithTemplates s rid token).sends.length = 1 := by
  refine ⟨?_, ?_, rfl⟩
  · simp [P1.respondToHelpRequestWithTemplates, h]
  · simp [P1.respondToHelpRequestWithTemplates, h]

/-- Witness for C3's amended theorem at the concrete unmapped token. -/
theorem claim3_amended_witness :
    (P1.respondToHelpRequestWithTemplates "S" "U" "QR_XYZZY").sends = [] ∧
    (P1.respondToHelpRequestWithTemplates "S" "U" "QR_XYZZY").logs =
      ["add at least two elements"] ∧
    (P2.respondToHelpRequestWithTemplates "S" "U" "QR_XYZZY").sends.length = 1 :=
  claim3_amended "S" "U" "QR_XYZZY" (by decide)

end Messenger
